import Mathlib

/-!
Shallow embedding of `src/stake/collect.py` (the powalert capture-decision
engine).  External collaborators (HTTP fetch, the Open-Meteo forecast
endpoint, the Dropbox client, PIL image decoding, the third-party
perceptual-hash library) are modelled as explicit inputs: an `Env` record
holds the responses each external call would produce, and image bytes are
modelled abstractly as either a decodable image or undecodable junk.
Python floats are embedded as exact rationals.
-/

namespace PowAlert

/-- Image encoding formats, as far as the engine can observe them. -/
inductive ImgFormat
  | jpeg
  | png
deriving DecidableEq, Repr

/-- A decoded raster image: its on-disk format plus pixel data
(row-major grayscale values, an abstraction of PIL's pixel access). -/
structure DecodedImage where
  format : ImgFormat
  width : Nat
  height : Nat
  pixels : List Nat
deriving DecidableEq, Repr

/-- Raw byte strings, abstracted to what the engine observes of them:
either they decode to exactly one image, or they fail to decode. -/
inductive Bytes
  | encoded : DecodedImage → Bytes
  | junk : Nat → Bytes
deriving DecidableEq, Repr

/-- PIL `Image.open` on a byte string: succeeds exactly on encoded images. -/
def decodeImage : Bytes → Option DecodedImage
  | Bytes.encoded img => some img
  | Bytes.junk _ => none

/-- A crop rectangle `(x1, y1, x2, y2)` in pixel units
(the 4-element `crop` list of a config entry). -/
structure Rect where
  x1 : Nat
  y1 : Nat
  x2 : Nat
  y2 : Nat
deriving DecidableEq, Repr

/-- PIL `img.crop((x1, y1, x2, y2))`: total, yields the sub-rectangle
(out-of-bounds pixels read as 0, as PIL pads). The format tag is kept;
`apply_crop` overrides it when re-encoding. -/
def cropImage (img : DecodedImage) (r : Rect) : DecodedImage :=
  { format := img.format
    width := r.x2 - r.x1
    height := r.y2 - r.y1
    pixels :=
      ((List.range (r.y2 - r.y1)).map (fun dy =>
        (List.range (r.x2 - r.x1)).map (fun dx =>
          img.pixels.getD ((r.y1 + dy) * img.width + (r.x1 + dx)) 0))).flatten }

/-- `apply_crop(img_bytes, crop)` from collect.py: falsy crop returns the
input unchanged; otherwise decode, crop, and re-encode with
`cropped.save(buf, format="JPEG")`; any failure returns the original bytes. -/
def apply_crop (img_bytes : Bytes) (crop : Option Rect) : Bytes :=
  match crop with
  | none => img_bytes
  | some r =>
    match decodeImage img_bytes with
    | none => img_bytes
    | some img => Bytes.encoded { cropImage img r with format := ImgFormat.jpeg }

/-- Modelled from the spec: the third-party `imagehash.phash` fingerprint
(a frequency-transform hash, not code of this repository) as an arbitrary
deterministic fixed-length bit signature of the decoded pixel data. The
claims depend only on determinism and on Hamming distance, not on the
transform itself. -/
def phashOf (img : DecodedImage) : List Bool :=
  (List.range 64).map (fun i => decide (img.pixels.getD i 0 % 2 = 1))

/-- Hamming distance between two bit signatures: `imagehash`'s
`__sub__` counts the differing bit positions. -/
def hammingDist (a b : List Bool) : Nat :=
  ((a.zip b).filter (fun p => p.1 != p.2)).length

/-- `get_phash(image_bytes)` from collect.py: decode then hash; on any
decode failure return `None`. -/
def get_phash (image_bytes : Bytes) : Option (List Bool) :=
  match decodeImage image_bytes with
  | none => none
  | some img => some (phashOf img)

/-- One entry returned by Dropbox `files_list_folder`: a file (as opposed
to folder) flag, the `client_modified` timestamp, and `path_lower`. -/
structure DbxEntry where
  isFile : Bool
  client_modified : Nat
  path_lower : String
deriving DecidableEq, Repr

/-- The Dropbox client as the engine uses it: listing a folder
(`none` models a raised exception) and downloading a path
(`none` models a raised exception). -/
structure DbxClient where
  list_folder : String → Option (List DbxEntry)
  download : String → Option Bytes

/-- Head of `files.sort(key=client_modified, reverse=True)`: the first
entry among those of maximal `client_modified` (Python's sort is stable). -/
def latestFile : List DbxEntry → Option DbxEntry
  | [] => none
  | e :: rest =>
    match latestFile rest with
    | none => some e
    | some m => if m.client_modified > e.client_modified then some m else some e

/-- `get_latest_dropbox_image(name)` from collect.py: with no client
return `None`; list `/powalert/{name}` (exception → `None`); keep only
file entries; if none, `None`; else download the most recently modified
entry's `path_lower` (exception → `None`). -/
def get_latest_dropbox_image (dbx : Option DbxClient) (name : String) : Option Bytes :=
  match dbx with
  | none => none
  | some c =>
    match c.list_folder ("/powalert/" ++ name) with
    | none => none
    | some entries =>
      match latestFile (entries.filter (fun e => e.isFile)) with
      | none => none
      | some latest => c.download latest.path_lower

/-- `is_meaningfully_different(new_bytes, name, crop)` from collect.py:
no reference → `True`; crop both, hash both; a failed hash → `True`;
else the Hamming distance must exceed 3. -/
def is_meaningfully_different (dbx : Option DbxClient) (new_bytes : Bytes)
    (name : String) (crop : Option Rect) : Bool :=
  match get_latest_dropbox_image dbx name with
  | none => true
  | some old_bytes =>
    let newB := apply_crop new_bytes crop
    let oldB := apply_crop old_bytes crop
    match get_phash oldB, get_phash newB with
    | some old_hash, some new_hash => decide (hammingDist old_hash new_hash > 3)
    | _, _ => true

/-- The `hourly` object of an Open-Meteo response: the `snowfall` series
(entries may be JSON null) and the `time` axis. -/
structure Hourly where
  snowfall : List (Option ℚ)
  time : List String
deriving DecidableEq, Repr

/-- The decoded JSON body of the forecast response; the `hourly` key may
be absent (`j.get("hourly", {})`). -/
structure ForecastResp where
  hourly : Option Hourly
deriving DecidableEq, Repr

/-- `(x or 0) / 2.54` from collect.py: null entries count as zero
centimeters, then centimeters become inches. -/
def cm_to_in (x : Option ℚ) : ℚ := x.getD 0 / (254 / 100)

/-- `get_snow_forecast(lat, lon)` from collect.py, with the network fetch
abstracted: `fetched = none` models a raised/failed `requests.get` or
`r.json()` (caught, yielding `(0, 0)`); otherwise sum the first 3 and
first 6 hourly snowfall entries in inches, after the emptiness guard. -/
def get_snow_forecast (fetched : Option ForecastResp) : ℚ × ℚ :=
  match fetched with
  | none => (0, 0)
  | some j =>
    let hourly := j.hourly.getD { snowfall := [], time := [] }
    if hourly.snowfall.isEmpty || hourly.time.isEmpty then (0, 0)
    else (((hourly.snowfall.take 3).map cm_to_in).sum,
          ((hourly.snowfall.take 6).map cm_to_in).sum)

/-- One entry of `stake_sources.json` as `main` reads it: `src["name"]`
and `src["snapshot_url"]` raise `KeyError` when absent (hence `Option`),
`lat`, `lon`, `crop` are read with `.get` (absent → `None`). -/
structure RawSource where
  name : Option String
  snapshot_url : Option String
  lat : Option ℚ
  lon : Option ℚ
  crop : Option Rect

/-- Python truthiness of an optional float: `None` and `0.0` are falsy. -/
def truthy : Option ℚ → Bool
  | none => false
  | some v => decide (v ≠ 0)

/-- All external collaborators of one run: the forecast endpoint keyed by
coordinates, the snapshot fetch keyed by URL (`none` models a raised
`requests.get`), and the optional Dropbox client (`none` models missing
credentials, `dbx is None`). -/
structure Env where
  forecast : ℚ → ℚ → Option ForecastResp
  fetchImage : String → Option Bytes
  dbx : Option DbxClient

/-- The per-source outcome `main` logs: candidate fetch failed
(`continue`), skipped as visually same, or kept (saved and uploaded). -/
inductive Outcome
  | fetchFailed : String → Outcome
  | skipped : String → Outcome
  | kept : String → Bytes → Outcome
deriving DecidableEq, Repr

/-- The weather gate of `main`: only when `lat and lon` are both truthy is
the forecast consulted, and `capture` becomes true iff
`next3 >= 0.25 or next6 >= 1.0`. -/
def weatherCapture (env : Env) (src : RawSource) : Bool :=
  if truthy src.lat && truthy src.lon then
    let p := get_snow_forecast (env.forecast (src.lat.getD 0) (src.lon.getD 0))
    decide (p.1 ≥ 1 / 4 ∨ p.2 ≥ 1)
  else false

/-- One iteration of the `for src in sources` loop of `main`: a missing
`name` or `snapshot_url` key raises `KeyError` (the `Except.error` case —
nothing catches it); otherwise run the weather gate, fetch the snapshot
(failure → log and `continue`), and apply the visual-diff gate only when
`capture` is false. -/
def processSource (env : Env) (src : RawSource) : Except String Outcome :=
  match src.name with
  | none => Except.error "KeyError: name"
  | some name =>
    match src.snapshot_url with
    | none => Except.error "KeyError: snapshot_url"
    | some url =>
      let capture := weatherCapture env src
      match env.fetchImage url with
      | none => Except.ok (Outcome.fetchFailed name)
      | some img_bytes =>
        if !capture && !is_meaningfully_different env.dbx img_bytes name src.crop then
          Except.ok (Outcome.skipped name)
        else
          Except.ok (Outcome.kept name img_bytes)

/-- The source loop of `main`: outcomes accumulate in order until a raised
`KeyError` aborts the run (the remaining sources are never reached); the
second component records the uncaught exception, if any. -/
def mainLoop (env : Env) : List RawSource → List Outcome × Option String
  | [] => ([], none)
  | src :: rest =>
    match processSource env src with
    | Except.error e => ([], some e)
    | Except.ok o =>
      let p := mainLoop env rest
      (o :: p.1, p.2)

/-! Concrete material shared by the witnesses. -/

/-- A small concrete decodable image. -/
def imgA : DecodedImage :=
  { format := ImgFormat.jpeg, width := 2, height := 2, pixels := [1, 2, 3, 4] }

/-- The bytes encoding `imgA`. -/
def bytesA : Bytes := Bytes.encoded imgA

/-- A Dropbox client whose archive holds one prior file, byte-identical
to `bytesA`. -/
def wClientSame : DbxClient :=
  { list_folder := fun _ =>
      some [{ isFile := true, client_modified := 7, path_lower := "/powalert/alta/prev.jpg" }]
    download := fun _ => some bytesA }

/-- An environment predicting 1 cm of snow in the first hour, serving
`bytesA` for every snapshot URL, with `wClientSame` as archive. -/
def wEnv1 : Env :=
  { forecast := fun _ _ =>
      some { hourly := some { snowfall := [some 1, some 0, some 0, some 0, some 0, some 0]
                              time := ["2026-10-12T00:00"] } }
    fetchImage := fun _ => some bytesA
    dbx := some wClientSame }

/-- A source with coordinates. -/
def wSrc1 : RawSource :=
  { name := some "alta", snapshot_url := some "https://alta/cam.jpg"
    lat := some (405 / 10), lon := some (-1116 / 10), crop := none }

/-- An environment with no forecast data and the byte-identical archive. -/
def wEnv2 : Env :=
  { forecast := fun _ _ => none
    fetchImage := fun _ => some bytesA
    dbx := some wClientSame }

/-- A source without coordinates. -/
def wSrc2 : RawSource :=
  { name := some "alta", snapshot_url := some "https://alta/cam.jpg"
    lat := none, lon := none, crop := none }

/-- A Dropbox client whose listing returns no entries. -/
def wClientEmpty : DbxClient :=
  { list_folder := fun _ => some [], download := fun _ => none }

/-- An environment whose archive has no entries for any source. -/
def wEnv3 : Env :=
  { forecast := fun _ _ => none
    fetchImage := fun _ => some bytesA
    dbx := some wClientEmpty }

/-! Claims. -/

/-- C1: for every source with (truthy) coordinates for which the forecast
gate yields `next3h_inches >= 0.25` or `next6h_inches >= 1.0`, the
decision is "keep" regardless of the visual-similarity comparison: the
conclusion holds for every archive state `env.dbx`. -/
theorem c1_weather_short_circuit (env : Env) (src : RawSource) (name url : String)
    (img : Bytes)
    (hn : src.name = some name) (hu : src.snapshot_url = some url)
    (hc : (truthy src.lat && truthy src.lon) = true)
    (hg : (get_snow_forecast (env.forecast (src.lat.getD 0) (src.lon.getD 0))).1 ≥ 1 / 4 ∨
          (get_snow_forecast (env.forecast (src.lat.getD 0) (src.lon.getD 0))).2 ≥ 1)
    (hf : env.fetchImage url = some img) :
    processSource env src = Except.ok (Outcome.kept name img) := by
  have hw : weatherCapture env src = true := by
    simp only [weatherCapture, hc, if_true]
    exact decide_eq_true hg
  simp [processSource, hn, hu, hf, hw]

/-- C1 witness: with 1 cm of snow forecast in the next hour (0.39 in ≥
0.25 in) and an archived image byte-identical to the candidate, the
decision is still "keep". -/
theorem c1_witness :
    processSource wEnv1 wSrc1 = Except.ok (Outcome.kept "alta" bytesA) :=
  c1_weather_short_circuit wEnv1 wSrc1 "alta" "https://alta/cam.jpg" bytesA
    rfl rfl (by simp [wSrc1, truthy])
    (Or.inl (by norm_num [wEnv1, wSrc1, get_snow_forecast, cm_to_in])) rfl

/-- C2: when the weather gate is false, a reference image exists, and
both fingerprints are computed, the decision is "keep" iff the Hamming
distance exceeds 3, and "skip" otherwise. -/
theorem c2_visual_gate (env : Env) (src : RawSource) (name url : String)
    (img old : Bytes) (old_hash new_hash : List Bool)
    (hn : src.name = some name) (hu : src.snapshot_url = some url)
    (hw : weatherCapture env src = false)
    (href : get_latest_dropbox_image env.dbx name = some old)
    (hoh : get_phash (apply_crop old src.crop) = some old_hash)
    (hnh : get_phash (apply_crop img src.crop) = some new_hash)
    (hf : env.fetchImage url = some img) :
    (processSource env src = Except.ok (Outcome.kept name img) ↔
      hammingDist old_hash new_hash > 3) ∧
    (processSource env src = Except.ok (Outcome.skipped name) ↔
      ¬ hammingDist old_hash new_hash > 3) := by
  have him : is_meaningfully_different env.dbx img name src.crop
      = decide (hammingDist old_hash new_hash > 3) := by
    simp only [is_meaningfully_different, href, hoh, hnh]
  by_cases hd : hammingDist old_hash new_hash > 3
  · constructor
    · simp [processSource, hn, hu, hf, hw, him, hd]
    · simp [processSource, hn, hu, hf, hw, him, hd]
  · constructor
    · simp [processSource, hn, hu, hf, hw, him, hd]
    · simp [processSource, hn, hu, hf, hw, him, hd]

/-- C2 witness: a byte-identical candidate and reference (Hamming
distance 0) with no snow signal is skipped. -/
theorem c2_witness :
    processSource wEnv2 wSrc2 = Except.ok (Outcome.skipped "alta") :=
  (c2_visual_gate wEnv2 wSrc2 "alta" "https://alta/cam.jpg" bytesA bytesA
      (phashOf imgA) (phashOf imgA) rfl rfl rfl rfl rfl rfl rfl).2.mpr (by decide)

/-- C3: when reference resolution yields none and the weather gate is
false, the decision is "keep". -/
theorem c3_first_image_kept (env : Env) (src : RawSource) (name url : String)
    (img : Bytes)
    (hn : src.name = some name) (hu : src.snapshot_url = some url)
    (hw : weatherCapture env src = false)
    (href : get_latest_dropbox_image env.dbx name = none)
    (hf : env.fetchImage url = some img) :
    processSource env src = Except.ok (Outcome.kept name img) := by
  have him : is_meaningfully_different env.dbx img name src.crop = true := by
    simp only [is_meaningfully_different, href]
  simp [processSource, hn, hu, hf, hw, him]

/-- C3 witness: an archive listing with no entries resolves the reference
to none, and the first image for the new source is kept. -/
theorem c3_witness :
    processSource wEnv3 wSrc2 = Except.ok (Outcome.kept "alta" bytesA) :=
  c3_first_image_kept wEnv3 wSrc2 "alta" "https://alta/cam.jpg" bytesA
    rfl rfl rfl rfl rfl

/-- A config entry missing the required `name` key. -/
def wBad4 : RawSource :=
  { name := none, snapshot_url := some "https://bad/cam.jpg"
    lat := none, lon := none, crop := none }

/-- A well-formed config entry. -/
def wGood4 : RawSource :=
  { name := some "good", snapshot_url := some "https://good/cam.jpg"
    lat := none, lon := none, crop := none }

/-- C4 counterexample: with a malformed first entry the run aborts with
an uncaught `KeyError` and produces no outcome at all, although the same
well-formed second entry alone is processed and kept — the malformed
entry is not "logged and skipped", it kills the rest of the run. -/
theorem c4_counterexample :
    mainLoop wEnv3 [wBad4, wGood4] = ([], some "KeyError: name") ∧
    mainLoop wEnv3 [wGood4] = ([Outcome.kept "good" bytesA], none) :=
  ⟨rfl, rfl⟩

/-- C4 amended: a source entry missing `name` or `snapshot_url` raises an
uncaught `KeyError` that aborts the entire run; no decision is made for
it and the remaining sources are never processed. -/
theorem c4_malformed_aborts_run (env : Env) (src : RawSource) (rest : List RawSource)
    (h : src.name = none ∨ src.snapshot_url = none) :
    ∃ e, mainLoop env (src :: rest) = ([], some e) := by
  cases h with
  | inl h1 => exact ⟨"KeyError: name", by simp [mainLoop, processSource, h1]⟩
  | inr h2 =>
    cases hn : src.name with
    | none => exact ⟨"KeyError: name", by simp [mainLoop, processSource, hn]⟩
    | some n => exact ⟨"KeyError: snapshot_url", by simp [mainLoop, processSource, hn, h2]⟩

/-- C4 amended witness: the malformed entry aborts a two-source run. -/
theorem c4_witness : ∃ e, mainLoop wEnv3 (wBad4 :: [wGood4]) = ([], some e) :=
  c4_malformed_aborts_run wEnv3 wBad4 [wGood4] (Or.inl rfl)

/-- A decodable PNG image. -/
def pngImg : DecodedImage :=
  { format := ImgFormat.png, width := 2, height := 2, pixels := [10, 20, 30, 40] }

/-- A crop rectangle selecting the top-left pixel. -/
def wRect : Rect := { x1 := 0, y1 := 0, x2 := 1, y2 := 1 }

/-- C5 counterexample: cropping decodable PNG bytes succeeds, yet the
result is re-encoded as JPEG — not the input's own format. -/
theorem c5_counterexample :
    decodeImage (Bytes.encoded pngImg) = some pngImg ∧
    pngImg.format = ImgFormat.png ∧
    (decodeImage (apply_crop (Bytes.encoded pngImg) (some wRect))).map DecodedImage.format
      = some ImgFormat.jpeg ∧
    ImgFormat.jpeg ≠ ImgFormat.png :=
  ⟨rfl, rfl, rfl, by decide⟩

/-- C5 amended: for input bytes that decode, cropping with a present
rectangle returns the cropped image re-encoded as JPEG, regardless of the
input's format. -/
theorem c5_jpeg_reencode (b : Bytes) (img : DecodedImage) (r : Rect)
    (h : decodeImage b = some img) :
    apply_crop b (some r)
      = Bytes.encoded { cropImage img r with format := ImgFormat.jpeg } := by
  simp [apply_crop, h]

/-- C5 amended witness: the PNG input comes back as a JPEG crop. -/
theorem c5_witness :
    apply_crop (Bytes.encoded pngImg) (some wRect)
      = Bytes.encoded { cropImage pngImg wRect with format := ImgFormat.jpeg } :=
  c5_jpeg_reencode (Bytes.encoded pngImg) pngImg wRect rfl

/-- Helper: `latestFile` returns `none` only on the empty list. -/
theorem latestFile_eq_none {l : List DbxEntry} (h : latestFile l = none) : l = [] := by
  cases l with
  | nil => rfl
  | cons a rest =>
    exfalso
    simp only [latestFile] at h
    cases hr : latestFile rest with
    | none => simp only [hr] at h; exact Option.noConfusion h
    | some m =>
      simp only [hr] at h
      by_cases hm : m.client_modified > a.client_modified
      · rw [if_pos hm] at h; exact Option.noConfusion h
      · rw [if_neg hm] at h; exact Option.noConfusion h

/-- Helper: the entry `latestFile` returns belongs to the list. -/
theorem latestFile_mem : ∀ (l : List DbxEntry) (e : DbxEntry),
    latestFile l = some e → e ∈ l := by
  intro l
  induction l with
  | nil => intro e h; exact Option.noConfusion h
  | cons a rest ih =>
    intro e h
    simp only [latestFile] at h
    cases hr : latestFile rest with
    | none =>
      simp only [hr] at h
      cases h
      exact List.mem_cons_self a rest
    | some m =>
      simp only [hr] at h
      by_cases hm : m.client_modified > a.client_modified
      · rw [if_pos hm] at h
        cases h
        exact List.mem_cons_of_mem a (ih _ hr)
      · rw [if_neg hm] at h
        cases h
        exact List.mem_cons_self a rest

/-- Helper: `latestFile` returns an entry of maximal `client_modified`. -/
theorem latestFile_max : ∀ (l : List DbxEntry) (e : DbxEntry),
    latestFile l = some e → ∀ x ∈ l, x.client_modified ≤ e.client_modified := by
  intro l
  induction l with
  | nil => intro e h; exact absurd h (by simp [latestFile])
  | cons a rest ih =>
    intro e h x hx
    simp only [latestFile] at h
    cases hr : latestFile rest with
    | none =>
      simp only [hr] at h
      cases h
      have hnil : rest = [] := latestFile_eq_none hr
      subst hnil
      rcases List.mem_cons.mp hx with rfl | hx'
      · exact le_refl _
      · exact absurd hx' (List.not_mem_nil x)
    | some m =>
      simp only [hr] at h
      by_cases hm : m.client_modified > a.client_modified
      · rw [if_pos hm] at h
        cases h
        rcases List.mem_cons.mp hx with rfl | hx'
        · exact le_of_lt hm
        · exact ih _ hr x hx'
      · rw [if_neg hm] at h
        cases h
        rcases List.mem_cons.mp hx with rfl | hx'
        · exact le_refl _
        · exact le_trans (ih _ hr x hx') (le_of_not_lt hm)

/-- C6: whenever the reference resolver returns bytes, they were
downloaded from a file entry of maximal modification timestamp under the
source's prefix; and it returns none when no client is configured, the
listing fails, no file entry exists, or the download fails. As a total
function it never raises. -/
theorem c6_reference_resolver (dbx : Option DbxClient) (name : String) :
    (∀ b, get_latest_dropbox_image dbx name = some b →
      ∃ c entries e, dbx = some c ∧
        c.list_folder ("/powalert/" ++ name) = some entries ∧
        e ∈ entries ∧ e.isFile = true ∧
        (∀ e' ∈ entries, e'.isFile = true → e'.client_modified ≤ e.client_modified) ∧
        c.download e.path_lower = some b) ∧
    (dbx = none → get_latest_dropbox_image dbx name = none) ∧
    (∀ c, dbx = some c → c.list_folder ("/powalert/" ++ name) = none →
      get_latest_dropbox_image dbx name = none) ∧
    (∀ c entries, dbx = some c → c.list_folder ("/powalert/" ++ name) = some entries →
      entries.filter (fun e => e.isFile) = [] →
      get_latest_dropbox_image dbx name = none) ∧
    (∀ c entries e, dbx = some c → c.list_folder ("/powalert/" ++ name) = some entries →
      latestFile (entries.filter (fun x => x.isFile)) = some e →
      c.download e.path_lower = none →
      get_latest_dropbox_image dbx name = none) := by
  refine ⟨?_, ?_, ?_, ?_, ?_⟩
  · intro b hb
    cases dbx with
    | none => exact absurd hb (by simp [get_latest_dropbox_image])
    | some c =>
      simp only [get_latest_dropbox_image] at hb
      cases hl : c.list_folder ("/powalert/" ++ name) with
      | none => simp only [hl] at hb; exact Option.noConfusion hb
      | some entries =>
        simp only [hl] at hb
        cases hlf : latestFile (entries.filter (fun e => e.isFile)) with
        | none => simp only [hlf] at hb; exact Option.noConfusion hb
        | some latest =>
          simp only [hlf] at hb
          have hmem := List.mem_filter.mp (latestFile_mem _ _ hlf)
          refine ⟨c, entries, latest, rfl, hl, hmem.1, hmem.2, ?_, hb⟩
          intro e' he' hfile
          exact latestFile_max _ _ hlf e' (List.mem_filter.mpr ⟨he', hfile⟩)
  · intro h
    rw [h]
    rfl
  · intro c hc hl
    rw [hc]
    simp [get_latest_dropbox_image, hl]
  · intro c entries hc hl hf
    rw [hc]
    simp [get_latest_dropbox_image, hl, hf, latestFile]
  · intro c entries e hc hl hlf hdl
    rw [hc]
    simp [get_latest_dropbox_image, hl, hlf, hdl]

/-- A Dropbox client listing two file entries and a folder entry, the
newer file carrying timestamp 9. -/
def wClient6 : DbxClient :=
  { list_folder := fun _ =>
      some [{ isFile := true, client_modified := 5, path_lower := "/powalert/alta/a.jpg" },
            { isFile := false, client_modified := 99, path_lower := "/powalert/alta/sub" },
            { isFile := true, client_modified := 9, path_lower := "/powalert/alta/b.jpg" }]
    download := fun _ => some bytesA }

/-- C6 witness: the resolver's returned bytes do come from a maximal
file entry of the concrete archive. -/
theorem c6_witness :
    ∃ c entries e, (some wClient6 : Option DbxClient) = some c ∧
      c.list_folder ("/powalert/" ++ "alta") = some entries ∧
      e ∈ entries ∧ e.isFile = true ∧
      (∀ e' ∈ entries, e'.isFile = true → e'.client_modified ≤ e.client_modified) ∧
      c.download e.path_lower = some bytesA :=
  (c6_reference_resolver (some wClient6) "alta").1 bytesA rfl

/-- C7: on any network or parse failure of the forecast fetch the gate
yields (0, 0), and likewise whenever the hourly snowfall series has fewer
than one entry; being a total function, it never raises. -/
theorem c7_forecast_degrades (fetched : Option ForecastResp) :
    (fetched = none → get_snow_forecast fetched = (0, 0)) ∧
    (∀ j, fetched = some j →
      (j.hourly.getD { snowfall := [], time := [] }).snowfall.length < 1 →
      get_snow_forecast fetched = (0, 0)) := by
  constructor
  · intro h
    rw [h]
    rfl
  · intro j hj hlen
    rw [hj]
    have hempty : (j.hourly.getD { snowfall := [], time := [] }).snowfall = [] :=
      List.length_eq_zero.mp (Nat.lt_one_iff.mp hlen)
    simp [get_snow_forecast, hempty]

/-- A response whose hourly snowfall series is present but empty. -/
def wRespEmpty : ForecastResp := { hourly := some { snowfall := [], time := ["t0"] } }

/-- C7 witness: a failed fetch and an empty series both yield (0, 0). -/
theorem c7_witness :
    get_snow_forecast none = (0, 0) ∧ get_snow_forecast (some wRespEmpty) = (0, 0) :=
  ⟨(c7_forecast_degrades none).1 rfl,
   (c7_forecast_degrades (some wRespEmpty)).2 wRespEmpty rfl (by decide)⟩

/-- C8: for a successfully fetched hourly snowfall series (hourly object
present, nonempty time axis), the gate returns the sums of the first 3
and first 6 entries, each divided by 2.54, a missing/null entry
contributing zero. -/
theorem c8_forecast_sums (j : ForecastResp) (h : Hourly)
    (hh : j.hourly = some h) (ht : h.time ≠ []) :
    get_snow_forecast (some j) =
      (((h.snowfall.take 3).map (fun x => x.getD 0 / (254 / 100))).sum,
       ((h.snowfall.take 6).map (fun x => x.getD 0 / (254 / 100))).sum) := by
  simp only [get_snow_forecast, hh, Option.getD_some]
  cases hs : h.snowfall with
  | nil => simp [hs]
  | cons a rest =>
    have h2 : h.time.isEmpty = false := by
      cases hht : h.time with
      | nil => exact absurd hht ht
      | cons _ _ => rfl
    rw [List.isEmpty_cons, h2]
    rfl

/-- An hourly series with seven entries, one of them null. -/
def wHourly8 : Hourly :=
  { snowfall := [some 1, none, some 2, some 0, some 1, some 3, some 99]
    time := ["t0", "t1", "t2", "t3", "t4", "t5", "t6"] }

/-- A successful forecast response carrying `wHourly8`. -/
def wResp8 : ForecastResp := { hourly := some wHourly8 }

/-- C8 witness: the gate on a concrete seven-entry series equals the
claimed pair of sums. -/
theorem c8_witness :
    get_snow_forecast (some wResp8) =
      (((wHourly8.snowfall.take 3).map (fun x => x.getD 0 / (254 / 100))).sum,
       ((wHourly8.snowfall.take 6).map (fun x => x.getD 0 / (254 / 100))).sum) :=
  c8_forecast_sums wResp8 wHourly8 rfl (by simp [wHourly8])

/-- C9: a latitude or longitude that is present but 0 disables the
weather gate exactly like absent coordinates: the weather verdict is
false, the forecast collaborator is never consulted (the decision is
invariant under changing it), and the decision equals that of the same
source with no coordinates at all. -/
theorem c9_falsy_coords (env : Env) (src : RawSource)
    (h : src.lat = some 0 ∨ src.lon = some 0) :
    weatherCapture env src = false ∧
    (∀ f g, processSource { env with forecast := f } src
          = processSource { env with forecast := g } src) ∧
    processSource env src = processSource env { src with lat := none, lon := none } := by
  have hc : (truthy src.lat && truthy src.lon) = false := by
    cases h with
    | inl h1 => rw [h1]; simp [truthy]
    | inr h2 => rw [h2]; simp [truthy]
  have hw : ∀ e : Env, weatherCapture e src = false := by
    intro e
    simp [weatherCapture, hc]
  refine ⟨hw env, ?_, ?_⟩
  · intro f g
    cases hn : src.name with
    | none => simp [processSource, hn]
    | some name =>
      cases hu : src.snapshot_url with
      | none => simp [processSource, hn, hu]
      | some url =>
        simp only [processSource, hn, hu, hw { env with forecast := f },
          hw { env with forecast := g }]
  · cases hn : src.name with
    | none => simp [processSource, hn]
    | some name =>
      cases hu : src.snapshot_url with
      | none => simp [processSource, hn, hu]
      | some url =>
        simp only [processSource, hn, hu, hw env]
        simp [weatherCapture, truthy]

/-- A source whose latitude is present but equal to 0. -/
def wSrc9 : RawSource :=
  { name := some "alta", snapshot_url := some "https://alta/cam.jpg"
    lat := some 0, lon := some (-1116 / 10), crop := none }

/-- C9 witness: zero latitude yields a false weather verdict even in an
environment forecasting heavy snow. -/
theorem c9_witness : weatherCapture wEnv1 wSrc9 = false :=
  (c9_falsy_coords wEnv1 wSrc9 (Or.inl rfl)).1

/-- C10: with no Dropbox client configured, the reference resolver
returns none for every source name, the visual check always reports
"meaningfully different", and consequently no source is ever skipped by
the visual gate. -/
theorem c10_no_credentials (env : Env) (hd : env.dbx = none) :
    (∀ name, get_latest_dropbox_image env.dbx name = none) ∧
    (∀ b name crop, is_meaningfully_different env.dbx b name crop = true) ∧
    (∀ src n, processSource env src ≠ Except.ok (Outcome.skipped n)) := by
  have h1 : ∀ name, get_latest_dropbox_image env.dbx name = none := by
    intro name
    rw [hd]
    rfl
  have h2 : ∀ b name crop, is_meaningfully_different env.dbx b name crop = true := by
    intro b name crop
    simp [is_meaningfully_different, h1 name]
  refine ⟨h1, h2, ?_⟩
  intro src n hcontra
  cases hn : src.name with
  | none => simp [processSource, hn] at hcontra
  | some name =>
    cases hu : src.snapshot_url with
    | none => simp [processSource, hn, hu] at hcontra
    | some url =>
      cases hf : env.fetchImage url with
      | none => simp [processSource, hn, hu, hf] at hcontra
      | some img =>
        simp [processSource, hn, hu, hf, h2 img name src.crop] at hcontra

/-- An environment with no Dropbox credentials configured. -/
def wEnvNoDbx : Env :=
  { forecast := fun _ _ => none, fetchImage := fun _ => some bytesA, dbx := none }

/-- C10 witness: in an uncredentialed run the concrete source is not
skipped. -/
theorem c10_witness :
    processSource wEnvNoDbx wSrc2 ≠ Except.ok (Outcome.skipped "alta") :=
  (c10_no_credentials wEnvNoDbx rfl).2.2 wSrc2 "alta"

end PowAlert
